import Mathlib

/-!
Shallow embedding of the rainycape/geoip record projector (src/record.go) and,
for the search tree, a model built from the specification (the file holding the
tree traversal is not part of src/).

Modelling conventions:
- A Go `interface\x7b\x7d` value produced by the database decoder is embedded as
  `Value`, the discriminated union of the decoded-value kinds named in the spec
  (null, boolean, signed 32-bit integer, unsigned 16/32/64/128-bit integers,
  32/64-bit floats, UTF-8 string, raw bytes, sequence, string-keyed map).
- A decoded map is an association list `List (String × Value)` with unique keys
  (Go map semantics); `goIndex m k` models the Go map index expression `m[k]`,
  which yields the untyped nil interface value (embedded as `Value.vNull`) when
  the key is missing.
- Go type assertions `v.(T)` with the comma-ok form are embedded as the
  Option-valued projections `Value.asStringMap?`, `Value.asString?`, `Value.asFloat64?`,
  `Value.asBool?`: they succeed exactly on the matching dynamic type.
- float64 payloads are carried as their IEEE-754 bit pattern (a `Nat`); the Go
  zero value 0.0 has bit pattern 0. No claim performs float arithmetic.
- A Go run-time panic (a failed single-valued type assertion) is embedded as
  `GoOutcome.panicked`; a normal return as `GoOutcome.ok`.
-/

namespace GeoIP

/-- Decoded dynamic value handed to the record projector, one constructor per
dynamic type of the decoded-value union described by the spec. -/
inductive Value where
  | vNull
  | vBool (b : Bool)
  | vString (s : String)
  | vBytes (bs : List Nat)
  | vFloat64 (bits : Nat)
  | vFloat32 (bits : Nat)
  | vInt32 (i : Int)
  | vUInt16 (n : Nat)
  | vUInt32 (n : Nat)
  | vUInt64 (n : Nat)
  | vUInt128 (n : Nat)
  | vArray (elems : List Value)
  | vMap (entries : List (String × Value))

/-- Go map indexing `m[k]` on a decoded map: the bound value when the key is
present, the nil interface value (`vNull`) when it is absent. -/
def goIndex (m : List (String × Value)) (k : String) : Value :=
  (List.lookup k m).getD .vNull

/-- Comma-ok type assertion to `map[string]interface\x7b\x7d`. -/
def Value.asStringMap? : Value → Option (List (String × Value))
  | .vMap m => some m
  | _ => none

/-- Comma-ok type assertion to `string`. -/
def Value.asString? : Value → Option String
  | .vString s => some s
  | _ => none

/-- Comma-ok type assertion to `float64` (result carried as the IEEE-754 bit
pattern). -/
def Value.asFloat64? : Value → Option Nat
  | .vFloat64 bits => some bits
  | _ => none

/-- Comma-ok type assertion to `bool`. -/
def Value.asBool? : Value → Option Bool
  | .vBool b => some b
  | _ => none

/-- Type assertion to `uint32`: succeeds exactly on the uint32 dynamic type
(used single-valued in newPlace, where failure is a panic). -/
def Value.asUInt32? : Value → Option Nat
  | .vUInt32 n => some n
  | _ => none

/-- Comma-ok type assertion to a slice of interface values. -/
def Value.asArray? : Value → Option (List Value)
  | .vArray l => some l
  | _ => none

/-- Outcome of a Go computation that can panic at run time (here: the failed
non-comma-ok type assertion in newPlace). -/
inductive GoOutcome (α : Type) where
  | panicked
  | ok (a : α)

/-- Sequencing of Go computations: a panic propagates, a normal value flows on. -/
def GoOutcome.bind {α β : Type} : GoOutcome α → (α → GoOutcome β) → GoOutcome β
  | .panicked, _ => .panicked
  | .ok a, f => f a

/-- Name is the Go `map[string]string` of localized names (record.go line 11),
embedded as an association list with unique keys. -/
abbrev Name := List (String × String)

/-- Embeds `Name.LocalizedName` (record.go lines 17-19): Go map lookup with the
zero value (empty string) for an absent key. -/
def Name.LocalizedName (n : Name) (lang : String) : String :=
  (List.lookup lang n).getD ""

/-- Embeds `Name.Localizations` (record.go lines 21-27): the keys of the map
(Go iteration order is unspecified; the claim about it is a set statement). -/
def Name.Localizations (n : Name) : List String :=
  n.map Prod.fst

/-- Embeds the `Place` struct (record.go lines 29-33). -/
structure Place where
  Code : String
  GeonameID : Nat
  Name : Name

/-- Embeds the `Record` struct (record.go lines 39-53). The Go pointer fields
`*Place` become `Option Place` (nil pointer = none); Latitude and Longitude are
float64 bit patterns. -/
structure Record where
  Continent : Option Place
  Country : Option Place
  RegisteredCountry : Option Place
  RepresentedCountry : Option Place
  City : Option Place
  Subdivisions : List Place
  Latitude : Nat
  Longitude : Nat
  MetroCode : String
  PostalCode : String
  TimeZone : String
  IsAnonymousProxy : Bool
  IsSatelliteProvider : Bool

/-- Embeds `Record.CountryCode` (record.go lines 55-60); the receiver is a Go
pointer, embedded as `Option Record` so the nil receiver is representable. -/
def Record.CountryCode (r : Option Record) : String :=
  match r with
  | some rec =>
    match rec.Country with
    | some p => p.Code
    | none => ""
  | none => ""

/-- Embeds the package-level `codes` preference list (record.go lines 7-9). -/
def codes : List String := ["iso_code", "code"]

/-- Embeds the code-selection loop of newPlace (record.go lines 66-71): the
first key of the list whose value passes the comma-ok string assertion wins;
otherwise the zero value (empty string). -/
def findCode (m : List (String × Value)) : List String → String
  | [] => ""
  | k :: ks =>
    match (goIndex m k).asString? with
    | some c => c
    | none => findCode m ks

/-- Embeds the names-copy loop of newPlace (record.go lines 72-79): when the
`names` value passes the map assertion, every string-valued entry is copied
key-for-key; other entries are skipped, and a non-map yields the empty Name. -/
def copyNames (v : Value) : Name :=
  match v.asStringMap? with
  | some names =>
    names.filterMap (fun kv =>
      match kv.2 with
      | .vString s => some (kv.1, s)
      | _ => none)
  | none => []

/-- Embeds `newPlace` (record.go lines 62-87). The source line 64 reads
`geonameId := int(m["geoname_id"].(uint32))`: a single-valued type assertion,
which panics at run time unless the key is present with dynamic type uint32. -/
def newPlace (val : Value) : GoOutcome (Option Place) :=
  match val.asStringMap? with
  | some m =>
    match (goIndex m "geoname_id").asUInt32? with
    | some g =>
      .ok (some { Code := findCode m codes, GeonameID := g, Name := copyNames (goIndex m "names") })
    | none => .panicked
  | none => .ok none

/-- Embeds record.go line 98: latitude from the `location` sub-map, zero value
on a failed comma-ok float64 assertion (also when `location` is not a map). -/
def latitudeField (locv : Value) : Nat :=
  match locv.asStringMap? with
  | some location => ((goIndex location "latitude").asFloat64?).getD 0
  | none => 0

/-- Embeds record.go line 99: longitude, as latitudeField. -/
def longitudeField (locv : Value) : Nat :=
  match locv.asStringMap? with
  | some location => ((goIndex location "longitude").asFloat64?).getD 0
  | none => 0

/-- Models fmt.Sprintf with verb %v applied to a decoded value, as used on
record.go line 101. The cases a metro code can hold per the spec (unsigned
integers and strings) are rendered exactly (decimal digits, the string itself);
Go rendering of floats, byte slices and containers is not modelled bit-exactly
and those cases return an explicit marker string no claim depends on. -/
def goSprintfV : Value → String
  | .vNull => "<nil>"
  | .vBool b => cond b "true" "false"
  | .vString s => s
  | .vBytes _ => "!bytes-rendering-not-modelled"
  | .vFloat64 _ => "!float-rendering-not-modelled"
  | .vFloat32 _ => "!float-rendering-not-modelled"
  | .vInt32 i => toString i
  | .vUInt16 n => Nat.repr n
  | .vUInt32 n => Nat.repr n
  | .vUInt64 n => Nat.repr n
  | .vUInt128 n => Nat.repr n
  | .vArray _ => "!array-rendering-not-modelled"
  | .vMap _ => "!map-rendering-not-modelled"

/-- Embeds record.go lines 100-102: the metro code is rendered with %v when the
looked-up value is non-nil, and stays the empty string otherwise. -/
def metroCodeField (locv : Value) : String :=
  match locv.asStringMap? with
  | some location =>
    match goIndex location "metro_code" with
    | .vNull => ""
    | v => goSprintfV v
  | none => ""

/-- Embeds record.go line 103: time zone via comma-ok string assertion. -/
def timeZoneField (locv : Value) : String :=
  match locv.asStringMap? with
  | some location => ((goIndex location "time_zone").asString?).getD ""
  | none => ""

/-- Embeds record.go lines 105-107: postal code from the `postal` sub-map. -/
def postalCodeField (postalv : Value) : String :=
  match postalv.asStringMap? with
  | some postal => ((goIndex postal "code").asString?).getD ""
  | none => ""

/-- Embeds record.go lines 116-118: is_anonymous_proxy from the `traits`
sub-map via comma-ok bool assertion. -/
def isAnonymousProxyField (traitsv : Value) : Bool :=
  match traitsv.asStringMap? with
  | some traits => ((goIndex traits "is_anonymous_proxy").asBool?).getD false
  | none => false

/-- Embeds record.go lines 116-119: is_satellite_provider likewise. -/
def isSatelliteProviderField (traitsv : Value) : Bool :=
  match traitsv.asStringMap? with
  | some traits => ((goIndex traits "is_satellite_provider").asBool?).getD false
  | none => false

/-- Embeds record.go line 109: the comma-ok assertion of `subdivisions` to a
slice; a failed assertion leaves the nil slice, over which the loop does
nothing. -/
def subdivisionsList (v : Value) : List Value :=
  match v.asArray? with
  | some l => l
  | none => []

/-- Embeds the subdivisions loop (record.go lines 110-114): each element goes
through newPlace, non-nil results are appended in order, and a panic inside
newPlace aborts the whole computation. -/
def projectSubdivisions : List Value → GoOutcome (List Place)
  | [] => .ok []
  | v :: vs =>
    match newPlace v with
    | .panicked => .panicked
    | .ok none => projectSubdivisions vs
    | .ok (some p) =>
      match projectSubdivisions vs with
      | .panicked => .panicked
      | .ok l => .ok (p :: l)

/-- Embeds `newRecord` (record.go lines 89-135). The error value returned for a
non-map top-level value is modelled as `Except.error ()` (the message text of
fmt.Errorf is not modelled). Panics raised by the newPlace calls propagate. -/
def newRecord (val : Value) : GoOutcome (Except Unit Record) :=
  match val.asStringMap? with
  | some m =>
    GoOutcome.bind (projectSubdivisions (subdivisionsList (goIndex m "subdivisions"))) (fun subdivisions =>
    GoOutcome.bind (newPlace (goIndex m "continent")) (fun continent =>
    GoOutcome.bind (newPlace (goIndex m "country")) (fun country =>
    GoOutcome.bind (newPlace (goIndex m "registered_country")) (fun registeredCountry =>
    GoOutcome.bind (newPlace (goIndex m "represented_country")) (fun representedCountry =>
    GoOutcome.bind (newPlace (goIndex m "city")) (fun city =>
    .ok (.ok {
      Continent := continent
      Country := country
      RegisteredCountry := registeredCountry
      RepresentedCountry := representedCountry
      City := city
      Subdivisions := subdivisions
      Latitude := latitudeField (goIndex m "location")
      Longitude := longitudeField (goIndex m "location")
      MetroCode := metroCodeField (goIndex m "location")
      PostalCode := postalCodeField (goIndex m "postal")
      TimeZone := timeZoneField (goIndex m "location")
      IsAnonymousProxy := isAnonymousProxyField (goIndex m "traits")
      IsSatelliteProvider := isSatelliteProviderField (goIndex m "traits") })))))))
  | none => .ok (.error ())

/-- Modelled from the spec: the outcome of one search-tree lookup. The file
holding the tree traversal (the Lookup and LookupIP implementation) is not
under src/; only record.go is. Per the spec, traversal ends in "not found", a
resolved data-section offset, or a format error when it runs out of address
bits while still inside the tree. -/
inductive FindResult where
  | notFound
  | found (offset : Nat)
  | formatError

/-- Modelled from the spec: search-tree traversal, section 4.3. `node idx b` is
the child pointer of node `idx` selected by address bit `b` (the bit-level
packing of the three record sizes is abstracted into this read function).
Starting from node 0 with the address bits most-significant first: a pointer
equal to the node count returns "not found" immediately; a smaller pointer
continues at that node with the next bit; a larger pointer resolves the data
offset pointer − node_count − 16 and halts even if address bits remain. -/
def findDataOffset (node : Nat → Bool → Nat) (nodeCount : Nat) : Nat → List Bool → FindResult
  | _, [] => .formatError
  | idx, b :: bs =>
    if node idx b = nodeCount then .notFound
    else if node idx b < nodeCount then findDataOffset node nodeCount (node idx b) bs
    else .found (node idx b - nodeCount - 16)

/-- Result of one newPlace call with a panic collapsed to none; used to state
which elements the subdivisions loop keeps. -/
def newPlaceOk (v : Value) : Option Place :=
  match newPlace v with
  | .ok p => p
  | .panicked => none

/-- Sample place map exercising the code preference list: iso_code present but
not a string, code a string. -/
def sampleCodeMap : List (String × Value) :=
  [("geoname_id", .vUInt32 1), ("iso_code", .vBool true), ("code", .vString "US")]

/-- Sample place projected from sampleCodeMap. -/
def sampleCodePlace : Place := { Code := "US", GeonameID := 1, Name := [] }

/-- The record projected from the empty decoded map: every field at its zero
value. -/
def emptyRecord : Record :=
  { Continent := none, Country := none, RegisteredCountry := none,
    RepresentedCountry := none, City := none, Subdivisions := [],
    Latitude := 0, Longitude := 0, MetroCode := "", PostalCode := "",
    TimeZone := "", IsAnonymousProxy := false, IsSatelliteProvider := false }

/-- Sample place map with a names sub-map holding one string and one non-string
entry. -/
def sampleNamesMap : List (String × Value) :=
  [("geoname_id", .vUInt32 2),
   ("names", .vMap [("en", .vString "United States"), ("zz", .vBool true)])]

/-- Sample place projected from sampleNamesMap. -/
def sampleNamesPlace : Place :=
  { Code := "", GeonameID := 2, Name := [("en", "United States")] }

/-- Sample record whose metro code came through as the decimal rendering of a
uint16. -/
def sampleMetroRecord : Record := { emptyRecord with MetroCode := "807" }

/-- Record projected from a map whose location sub-map stores the boolean true
under metro_code: the value is not null, so it is rendered with the %v verb to
the text "true" instead of defaulting to the empty string. -/
def wrongTypeMetroRecord : Record := { emptyRecord with MetroCode := "true" }

/-- Sample decoded record map whose subdivisions hold one map element and one
non-map element. -/
def sampleSubsMap : List (String × Value) :=
  [("subdivisions", .vArray [.vMap [("geoname_id", .vUInt32 3)], .vBool true])]

/-- Sample record projected from sampleSubsMap. -/
def sampleSubsRecord : Record :=
  { emptyRecord with Subdivisions := [{ Code := "", GeonameID := 3, Name := [] }] }

theorem GoOutcome.bind_eq_ok {α β : Type} {x : GoOutcome α} {f : α → GoOutcome β} {b : β}
    (h : GoOutcome.bind x f = .ok b) : ∃ a, x = .ok a ∧ f a = .ok b := by
  cases x with
  | panicked => simp [GoOutcome.bind] at h
  | ok a => exact ⟨a, rfl, h⟩

theorem newPlace_ok_some (m : List (String × Value)) (p : Place)
    (h : newPlace (.vMap m) = .ok (some p)) :
    ∃ g, (goIndex m "geoname_id").asUInt32? = some g ∧
      p = { Code := findCode m codes, GeonameID := g,
            Name := copyNames (goIndex m "names") } := by
  simp only [newPlace, Value.asStringMap?] at h
  cases hg : (goIndex m "geoname_id").asUInt32? with
  | none => rw [hg] at h; cases h
  | some g =>
    rw [hg] at h
    injection h with h1
    injection h1 with h2
    exact ⟨g, rfl, h2.symm⟩

theorem newRecord_ok (m : List (String × Value)) (r : Record)
    (h : newRecord (.vMap m) = .ok (.ok r)) :
    ∃ subs continent country reg rep city,
      projectSubdivisions (subdivisionsList (goIndex m "subdivisions")) = .ok subs ∧
      newPlace (goIndex m "continent") = .ok continent ∧
      newPlace (goIndex m "country") = .ok country ∧
      newPlace (goIndex m "registered_country") = .ok reg ∧
      newPlace (goIndex m "represented_country") = .ok rep ∧
      newPlace (goIndex m "city") = .ok city ∧
      r = { Continent := continent, Country := country, RegisteredCountry := reg,
            RepresentedCountry := rep, City := city, Subdivisions := subs,
            Latitude := latitudeField (goIndex m "location"),
            Longitude := longitudeField (goIndex m "location"),
            MetroCode := metroCodeField (goIndex m "location"),
            PostalCode := postalCodeField (goIndex m "postal"),
            TimeZone := timeZoneField (goIndex m "location"),
            IsAnonymousProxy := isAnonymousProxyField (goIndex m "traits"),
            IsSatelliteProvider := isSatelliteProviderField (goIndex m "traits") } := by
  unfold newRecord at h
  obtain ⟨subs, h1, h⟩ := GoOutcome.bind_eq_ok h
  obtain ⟨continent, h2, h⟩ := GoOutcome.bind_eq_ok h
  obtain ⟨country, h3, h⟩ := GoOutcome.bind_eq_ok h
  obtain ⟨reg, h4, h⟩ := GoOutcome.bind_eq_ok h
  obtain ⟨rep, h5, h⟩ := GoOutcome.bind_eq_ok h
  obtain ⟨city, h6, h⟩ := GoOutcome.bind_eq_ok h
  injection h with h7
  injection h7 with h8
  exact ⟨subs, continent, country, reg, rep, city, h1, h2, h3, h4, h5, h6, h8.symm⟩

theorem projectSubdivisions_ok (l : List Value) (ps : List Place)
    (h : projectSubdivisions l = .ok ps) :
    ps = l.filterMap newPlaceOk ∧ ∀ v ∈ l, newPlace v ≠ .panicked := by
  induction l generalizing ps with
  | nil =>
    injection h with h1
    subst h1
    exact ⟨rfl, by simp⟩
  | cons v vs ih =>
    unfold projectSubdivisions at h
    cases hv : newPlace v with
    | panicked => rw [hv] at h; cases h
    | ok po =>
      rw [hv] at h
      cases po with
      | none =>
        obtain ⟨h1, h2⟩ := ih ps h
        refine ⟨?_, ?_⟩
        · rw [List.filterMap_cons]
          simp only [newPlaceOk, hv]
          exact h1
        · intro w hw
          rcases List.mem_cons.mp hw with hw | hw
          · subst hw; rw [hv]; intro hc; cases hc
          · exact h2 w hw
      | some p =>
        cases hrest : projectSubdivisions vs with
        | panicked => rw [hrest] at h; cases h
        | ok lrest =>
          rw [hrest] at h
          injection h with h1
          subst h1
          obtain ⟨h1, h2⟩ := ih lrest hrest
          refine ⟨?_, ?_⟩
          · rw [List.filterMap_cons]
            simp only [newPlaceOk, hv]
            rw [h1]
          · intro w hw
            rcases List.mem_cons.mp hw with hw | hw
            · subst hw; rw [hv]; intro hc; cases hc
            · exact h2 w hw

theorem newPlaceOk_isSome_iff (v : Value) (hnp : newPlace v ≠ .panicked) :
    (newPlaceOk v).isSome = true ↔ (v.asStringMap?).isSome = true := by
  cases hm : v.asStringMap? with
  | none => simp [newPlaceOk, newPlace, hm]
  | some m =>
    cases hg : (goIndex m "geoname_id").asUInt32? with
    | none => exact absurd (by simp [newPlace, hm, hg]) hnp
    | some g => simp [newPlaceOk, newPlace, hm, hg]

theorem lookup_isSome_iff_mem_keys (lang : String) (n : List (String × String)) :
    (List.lookup lang n).isSome = true ↔ lang ∈ n.map Prod.fst := by
  induction n with
  | nil => simp [List.lookup]
  | cons kv tl ih =>
    obtain ⟨k, v⟩ := kv
    by_cases hk : lang = k
    · subst hk
      simp [List.lookup]
    · simp only [List.lookup, List.map_cons, List.mem_cons]
      have hbeq : (lang == k) = false := beq_false_of_ne hk
      rw [hbeq]
      simp [hk, ih]

/-- C1 evidence: the decoded value whose `city` key holds an empty sub-map makes
newRecord panic, because newPlace performs the single-valued type assertion
`m["geoname_id"].(uint32)` on an absent key (record.go line 64); the projection
does not degrade the absence to a zero geoname identifier. -/
theorem newRecord_panics_on_missing_geoname_id :
    newRecord (.vMap [("city", .vMap [])]) = .panicked := rfl

/-- C2: at each traversal step the child pointer selected by the current
address bit decides the outcome: equal to the node count returns "not found"
immediately; less than the node count continues at that node with the next
bit; greater than the node count halts (even though address bits remain in
`bs`) and resolves the data-section offset pointer − node_count − 16. -/
theorem searchTree_step_cases (node : Nat → Bool → Nat) (nodeCount idx : Nat)
    (b : Bool) (bs : List Bool) :
    (node idx b = nodeCount →
      findDataOffset node nodeCount idx (b :: bs) = .notFound) ∧
    (node idx b < nodeCount →
      findDataOffset node nodeCount idx (b :: bs) =
        findDataOffset node nodeCount (node idx b) bs) ∧
    (nodeCount < node idx b →
      findDataOffset node nodeCount idx (b :: bs) =
        .found (node idx b - nodeCount - 16)) := by
  refine ⟨?_, ?_, ?_⟩ <;> intro h
  · simp [findDataOffset, h]
  · simp [findDataOffset, h, Nat.ne_of_lt h]
  · have h1 : node idx b ≠ nodeCount := by omega
    have h2 : ¬ node idx b < nodeCount := by omega
    simp [findDataOffset, h1, h2]

theorem searchTree_step_cases_witness :
    (5 < 25 ∧ findDataOffset (fun _ _ => 25) 5 0 [true, false] = .found 4) ∧
    (findDataOffset (fun _ _ => 5) 5 0 [true] = .notFound) :=
  ⟨⟨by decide, (searchTree_step_cases (fun _ _ => 25) 5 0 true [false]).2.2 (by decide)⟩,
    (searchTree_step_cases (fun _ _ => 5) 5 0 true []).1 rfl⟩

theorem findCode_hit (m : List (String × Value)) (k : String) (ks : List String) (s : String)
    (hk : goIndex m k = .vString s) : findCode m (k :: ks) = s := by
  simp [findCode, hk, Value.asString?]

theorem findCode_skip (m : List (String × Value)) (k : String) (ks : List String)
    (hk : (goIndex m k).asString? = none) : findCode m (k :: ks) = findCode m ks := by
  simp [findCode, hk]

/-- C3: a Place projected from a map chooses its code by the preference list
iso_code then code: a string under iso_code wins; otherwise (also when
iso_code is present but not a string) a string under code wins; otherwise the
code is the empty string. -/
theorem place_code_preference (m : List (String × Value)) (p : Place)
    (h : newPlace (.vMap m) = .ok (some p)) :
    (∀ s, goIndex m "iso_code" = .vString s → p.Code = s) ∧
    ((goIndex m "iso_code").asString? = none →
      (∀ t, goIndex m "code" = .vString t → p.Code = t) ∧
      ((goIndex m "code").asString? = none → p.Code = "")) := by
  obtain ⟨g, hg, hp⟩ := newPlace_ok_some m p h
  subst hp
  constructor
  · intro s hs
    show findCode m codes = s
    exact findCode_hit m "iso_code" ["code"] s hs
  · intro hiso
    have hskip : findCode m codes = findCode m ["code"] :=
      findCode_skip m "iso_code" ["code"] hiso
    constructor
    · intro t ht
      show findCode m codes = t
      rw [hskip]
      exact findCode_hit m "code" [] t ht
    · intro hcode
      show findCode m codes = ""
      rw [hskip, findCode_skip m "code" [] hcode]
      rfl

theorem place_code_preference_witness :
    newPlace (.vMap sampleCodeMap) = .ok (some sampleCodePlace) ∧
    sampleCodePlace.Code = "US" :=
  ⟨rfl, ((place_code_preference sampleCodeMap sampleCodePlace rfl).2 rfl).1 "US" rfl⟩

/-- C4: newPlace returns no Place exactly when its input is not a string-keyed
map; hence each Place field of a successfully projected Record is absent iff
the corresponding key is missing or not map-typed, and a present Place is
always distinct from an absent one. -/
theorem place_absence_iff_not_map (v : Value) (m : List (String × Value)) (r : Record)
    (h : newRecord (.vMap m) = .ok (.ok r)) :
    (newPlace v = .ok none ↔ v.asStringMap? = none) ∧
    ((r.Continent = none ↔ (goIndex m "continent").asStringMap? = none) ∧
     (r.Country = none ↔ (goIndex m "country").asStringMap? = none) ∧
     (r.RegisteredCountry = none ↔ (goIndex m "registered_country").asStringMap? = none) ∧
     (r.RepresentedCountry = none ↔ (goIndex m "represented_country").asStringMap? = none) ∧
     (r.City = none ↔ (goIndex m "city").asStringMap? = none)) ∧
    (∀ p : Place, some p ≠ (none : Option Place)) := by
  have ha : ∀ w : Value, newPlace w = .ok none ↔ w.asStringMap? = none := by
    intro w
    cases hm : w.asStringMap? with
    | none => simp [newPlace, hm]
    | some mm =>
      cases hg : (goIndex mm "geoname_id").asUInt32? with
      | none => simp [newPlace, hm, hg]
      | some g => simp [newPlace, hm, hg]
  have hb : ∀ (w : Value) (po : Option Place), newPlace w = .ok po →
      (po = none ↔ w.asStringMap? = none) := by
    intro w po h2
    constructor
    · intro hpo
      subst hpo
      exact (ha w).mp h2
    · intro hw
      have h3 := (ha w).mpr hw
      rw [h2] at h3
      injection h3
  obtain ⟨subs, continent, country, reg, rep, city, h1, h2, h3, h4, h5, h6, hr⟩ :=
    newRecord_ok m r h
  subst hr
  exact ⟨ha v, ⟨hb _ _ h2, hb _ _ h3, hb _ _ h4, hb _ _ h5, hb _ _ h6⟩,
    fun p => Option.some_ne_none p⟩

theorem place_absence_iff_not_map_witness :
    newRecord (.vMap []) = .ok (.ok emptyRecord) ∧
    (newPlace (.vString "x") = .ok none ↔ (Value.vString "x").asStringMap? = none) :=
  ⟨rfl, (place_absence_iff_not_map (.vString "x") [] emptyRecord rfl).1⟩

/-- C5: the Name mapping of a projected Place holds exactly the string-valued
entries of the `names` sub-map, key-for-key and in order; non-string values
are skipped, and an absent or non-map `names` yields the empty mapping. -/
theorem place_names_projection (m : List (String × Value)) (p : Place)
    (h : newPlace (.vMap m) = .ok (some p)) :
    (∀ names, goIndex m "names" = .vMap names →
      p.Name = names.filterMap (fun kv =>
        match kv.2 with
        | .vString s => some (kv.1, s)
        | _ => none)) ∧
    ((goIndex m "names").asStringMap? = none → p.Name = []) := by
  obtain ⟨g, hg, hp⟩ := newPlace_ok_some m p h
  subst hp
  constructor
  · intro names hn
    show copyNames (goIndex m "names") = _
    simp [copyNames, hn, Value.asStringMap?]
  · intro hn
    show copyNames (goIndex m "names") = []
    simp [copyNames, hn]

theorem place_names_projection_witness :
    newPlace (.vMap sampleNamesMap) = .ok (some sampleNamesPlace) ∧
    sampleNamesPlace.Name = [("en", "United States")] :=
  ⟨rfl, (place_names_projection sampleNamesMap sampleNamesPlace rfl).1
    [("en", .vString "United States"), ("zz", .vBool true)] rfl⟩

/-- C6 counterexample: the claim as stated says the metro code is an empty
string whenever its field is of the wrong type, but record.go lines 100-102
perform no type assertion on metro_code and render every non-nil value with
the %v verb: storing the boolean true under metro_code yields the MetroCode
"true", not the empty string. -/
theorem metro_code_wrong_type_not_default :
    newRecord (.vMap [("location", .vMap [("metro_code", .vBool true)])]) =
      .ok (.ok wrongTypeMetroRecord) ∧
    wrongTypeMetroRecord.MetroCode ≠ "" :=
  ⟨rfl, by decide⟩

/-- C6 as amended: scalar record fields fall back to their zero values when
their sources are absent or mistyped: latitude and longitude to the zero
float, time zone and postal code to the empty string when the location or
postal sub-map (or the individual field) is missing or of the wrong type,
metro code to the empty string when the whole location sub-map is missing or
the metro_code value is absent or null (a present non-null metro_code of any
other type is rendered instead, see C7 and the counterexample above), and the
two traits booleans to false when the traits sub-map or the keys are missing
or non-boolean. Latitude and Longitude are IEEE-754 bit patterns; 0 is the
pattern of 0.0. -/
theorem record_scalar_defaults (m : List (String × Value)) (r : Record)
    (h : newRecord (.vMap m) = .ok (.ok r)) :
    ((goIndex m "location").asStringMap? = none →
        r.Latitude = 0 ∧ r.Longitude = 0 ∧ r.MetroCode = "" ∧ r.TimeZone = "") ∧
    (∀ location, goIndex m "location" = .vMap location →
        ((goIndex location "latitude").asFloat64? = none → r.Latitude = 0) ∧
        ((goIndex location "longitude").asFloat64? = none → r.Longitude = 0) ∧
        ((goIndex location "time_zone").asString? = none → r.TimeZone = "") ∧
        (goIndex location "metro_code" = .vNull → r.MetroCode = "")) ∧
    ((goIndex m "postal").asStringMap? = none → r.PostalCode = "") ∧
    (∀ postal, goIndex m "postal" = .vMap postal →
        ((goIndex postal "code").asString? = none → r.PostalCode = "")) ∧
    ((goIndex m "traits").asStringMap? = none →
        r.IsAnonymousProxy = false ∧ r.IsSatelliteProvider = false) ∧
    (∀ traits, goIndex m "traits" = .vMap traits →
        ((goIndex traits "is_anonymous_proxy").asBool? = none →
          r.IsAnonymousProxy = false) ∧
        ((goIndex traits "is_satellite_provider").asBool? = none →
          r.IsSatelliteProvider = false)) := by
  obtain ⟨subs, continent, country, reg, rep, city, h1, h2, h3, h4, h5, h6, hr⟩ :=
    newRecord_ok m r h
  subst hr
  refine ⟨?_, ?_, ?_, ?_, ?_, ?_⟩
  · intro hloc
    refine ⟨?_, ?_, ?_, ?_⟩ <;>
      simp [latitudeField, longitudeField, metroCodeField, timeZoneField, hloc]
  · intro location hloc
    refine ⟨?_, ?_, ?_, ?_⟩
    · intro hx
      simp [latitudeField, hloc, Value.asStringMap?, hx]
    · intro hx
      simp [longitudeField, hloc, Value.asStringMap?, hx]
    · intro hx
      simp [timeZoneField, hloc, Value.asStringMap?, hx]
    · intro hx
      simp [metroCodeField, hloc, Value.asStringMap?, hx]
  · intro hp
    simp [postalCodeField, hp]
  · intro postal hp hx
    simp [postalCodeField, hp, Value.asStringMap?, hx]
  · intro ht
    constructor <;> simp [isAnonymousProxyField, isSatelliteProviderField, ht]
  · intro traits ht
    constructor
    · intro hx
      simp [isAnonymousProxyField, ht, Value.asStringMap?, hx]
    · intro hx
      simp [isSatelliteProviderField, ht, Value.asStringMap?, hx]

theorem record_scalar_defaults_witness :
    newRecord (.vMap [("location", .vMap [("latitude", .vString "x")])]) =
      .ok (.ok emptyRecord) ∧
    emptyRecord.Latitude = 0 ∧ emptyRecord.IsSatelliteProvider = false :=
  ⟨rfl,
    ((record_scalar_defaults [("location", .vMap [("latitude", .vString "x")])]
        emptyRecord rfl).2.1 [("latitude", .vString "x")] rfl).1 rfl,
    ((record_scalar_defaults [("location", .vMap [("latitude", .vString "x")])]
        emptyRecord rfl).2.2.2.2.1 rfl).2⟩

/-- C7: a non-null metro_code in the location sub-map is rendered to its
decimal text form: a stored unsigned integer of any width gives its decimal
digits, a stored string passes through unchanged, and an absent metro_code
leaves the field empty. -/
theorem metro_code_rendering (m location : List (String × Value)) (r : Record)
    (h : newRecord (.vMap m) = .ok (.ok r))
    (hloc : goIndex m "location" = .vMap location) :
    (∀ n, goIndex location "metro_code" = .vUInt16 n → r.MetroCode = Nat.repr n) ∧
    (∀ n, goIndex location "metro_code" = .vUInt32 n → r.MetroCode = Nat.repr n) ∧
    (∀ n, goIndex location "metro_code" = .vUInt64 n → r.MetroCode = Nat.repr n) ∧
    (∀ n, goIndex location "metro_code" = .vUInt128 n → r.MetroCode = Nat.repr n) ∧
    (∀ s, goIndex location "metro_code" = .vString s → r.MetroCode = s) ∧
    (List.lookup "metro_code" location = none → r.MetroCode = "") := by
  obtain ⟨subs, continent, country, reg, rep, city, h1, h2, h3, h4, h5, h6, hr⟩ :=
    newRecord_ok m r h
  subst hr
  refine ⟨?_, ?_, ?_, ?_, ?_, ?_⟩
  · intro n hx
    simp [metroCodeField, hloc, Value.asStringMap?, hx, goSprintfV]
  · intro n hx
    simp [metroCodeField, hloc, Value.asStringMap?, hx, goSprintfV]
  · intro n hx
    simp [metroCodeField, hloc, Value.asStringMap?, hx, goSprintfV]
  · intro n hx
    simp [metroCodeField, hloc, Value.asStringMap?, hx, goSprintfV]
  · intro s hx
    simp [metroCodeField, hloc, Value.asStringMap?, hx, goSprintfV]
  · intro hx
    have hmc : goIndex location "metro_code" = .vNull := by
      simp [goIndex, hx]
    simp [metroCodeField, hloc, Value.asStringMap?, hmc]

theorem metro_code_rendering_witness :
    newRecord (.vMap [("location", .vMap [("metro_code", .vUInt16 807)])]) =
      .ok (.ok sampleMetroRecord) ∧
    sampleMetroRecord.MetroCode = Nat.repr 807 :=
  ⟨rfl,
    (metro_code_rendering [("location", .vMap [("metro_code", .vUInt16 807)])]
      [("metro_code", .vUInt16 807)] sampleMetroRecord rfl rfl).1 807 rfl⟩

/-- C8: when the subdivisions key holds a sequence, the projected Subdivisions
list is the in-order projection of exactly those elements that are
string-keyed maps; non-map elements are skipped without disturbing the order
of the rest. -/
theorem subdivisions_projection (m : List (String × Value)) (subs : List Value)
    (r : Record) (h : newRecord (.vMap m) = .ok (.ok r))
    (hsubs : goIndex m "subdivisions" = .vArray subs) :
    r.Subdivisions = subs.filterMap newPlaceOk ∧
    ∀ v ∈ subs, ((newPlaceOk v).isSome = true ↔ (v.asStringMap?).isSome = true) := by
  obtain ⟨subs2, continent, country, reg, rep, city, h1, h2, h3, h4, h5, h6, hr⟩ :=
    newRecord_ok m r h
  subst hr
  rw [hsubs] at h1
  have h1b : projectSubdivisions subs = .ok subs2 := h1
  obtain ⟨heq, hnp⟩ := projectSubdivisions_ok subs subs2 h1b
  exact ⟨heq, fun v hv => newPlaceOk_isSome_iff v (hnp v hv)⟩

theorem subdivisions_projection_witness :
    newRecord (.vMap sampleSubsMap) = .ok (.ok sampleSubsRecord) ∧
    sampleSubsRecord.Subdivisions = [{ Code := "", GeonameID := 3, Name := ([] : Name) }] :=
  ⟨rfl,
    (subdivisions_projection sampleSubsMap
      [.vMap [("geoname_id", .vUInt32 3)], .vBool true] sampleSubsRecord rfl rfl).1⟩

/-- C9: LocalizedName returns the stored text for a present language code and
the empty string for an absent one, and Localizations holds exactly the set of
language codes present in the mapping. -/
theorem localized_name_and_localizations (n : Name) (lang : String) :
    (∀ s, List.lookup lang n = some s → Name.LocalizedName n lang = s) ∧
    (List.lookup lang n = none → Name.LocalizedName n lang = "") ∧
    (lang ∈ Name.Localizations n ↔ (List.lookup lang n).isSome = true) := by
  refine ⟨?_, ?_, ?_⟩
  · intro s hs
    simp [Name.LocalizedName, hs]
  · intro hs
    simp [Name.LocalizedName, hs]
  · rw [Name.Localizations]
    exact (lookup_isSome_iff_mem_keys lang n).symm

theorem localized_name_and_localizations_witness :
    Name.LocalizedName [("en", "United States"), ("es", "Estados Unidos")] "en" =
      "United States" ∧
    ("en" ∈ Name.Localizations [("en", "United States"), ("es", "Estados Unidos")] ↔
      (List.lookup "en" [("en", "United States"), ("es", "Estados Unidos")]).isSome = true) :=
  ⟨(localized_name_and_localizations
      [("en", "United States"), ("es", "Estados Unidos")] "en").1 "United States" rfl,
    (localized_name_and_localizations
      [("en", "United States"), ("es", "Estados Unidos")] "en").2.2⟩

/-- C10: CountryCode is total on every receiver including the nil one: it
yields the Country place code when the record and its Country field are
present, and the empty string when the receiver or its Country field is nil. -/
theorem country_code_total (r : Option Record) :
    (r = none → Record.CountryCode r = "") ∧
    (∀ rec, r = some rec → rec.Country = none → Record.CountryCode r = "") ∧
    (∀ rec p, r = some rec → rec.Country = some p → Record.CountryCode r = p.Code) := by
  refine ⟨?_, ?_, ?_⟩
  · intro h
    subst h
    rfl
  · intro rec h hc
    subst h
    simp [Record.CountryCode, hc]
  · intro rec p h hc
    subst h
    simp [Record.CountryCode, hc]

theorem country_code_total_witness : Record.CountryCode none = "" :=
  (country_code_total none).1 rfl

end GeoIP
